import Mathlib

/-!
Verification of the metrics-collection core of the `diploma` repository.

The relevant parts of `app/utils.py`, `app/services.py` and
`app/database.py` are shallowly embedded: pure helpers become Lean
functions, the collection loop and the start/stop lifecycle become
explicit state machines over small step functions, Python exceptions
become explicit error values, and Python `float` values are modelled as
exact rationals (none of the properties proved here depends on binary
rounding).
-/

namespace Diploma

deriving instance DecidableEq for Except

/-- Python exception classes that occur on the embedded code paths. -/
inductive PyExn where
  | indexError
  | valueError
  | runtimeError
  | calledProcessError
  | zeroDivisionError
  deriving Repr, DecidableEq

/-! ### Model of Python `float(str)`

`sanitize_numeric_value` (app/utils.py 156-172) calls `float` on a
string; `float` either returns a value or raises `ValueError`.  Finite
values are kept as exact rationals.  The grammar below follows CPython's
string-to-float conversion: optional surrounding whitespace, an optional
sign, then either an `inf`/`infinity`/`nan` word (case-insensitive) or a
decimal literal `digits [. digits] [(e|E) [sign] digits]` in which a
single underscore may separate two digits. -/

/-- Result domain of Python `float`. -/
inductive PyFloat where
  | finite (q : ℚ)
  | inf
  | negInf
  | nan
  deriving Repr, DecidableEq

/-- Characters stripped by `float(str)` around the literal (ASCII). -/
def isPyWhitespace (c : Char) : Bool :=
  c = ' ' || c = '\t' || c = '\n' || c = '\r' || c = '\x0b' || c = '\x0c'

/-- Consumes a leading run of decimal digits in which one underscore may
stand between two digits (Python numeric-literal grouping); returns the
digits with grouping underscores removed, and the rest of the input. -/
def takeDigits : List Char → List Char × List Char
  | [] => ([], [])
  | [c] => if c.isDigit then ([c], []) else ([], [c])
  | c :: '_' :: rest2 =>
    if c.isDigit then
      match rest2 with
      | d :: _ =>
        if d.isDigit then
          let (ds, r) := takeDigits rest2
          (c :: ds, r)
        else ([c], '_' :: rest2)
      | [] => ([c], ['_'])
    else ([], c :: '_' :: rest2)
  | c :: c2 :: rest =>
    if c.isDigit then
      let (ds, r) := takeDigits (c2 :: rest)
      (c :: ds, r)
    else ([], c :: c2 :: rest)

/-- Numeric value of a digit string. -/
def digitsVal (ds : List Char) : Nat :=
  ds.foldl (fun n c => 10 * n + (c.toNat - '0'.toNat)) 0

/-- Mantissa part `digits [. digits]`; at least one digit must occur on
one side of the dot. -/
def parseMantissa (cs : List Char) : Option (ℚ × List Char) :=
  let (ip, r1) := takeDigits cs
  match r1 with
  | '.' :: r2 =>
    let (fp, r3) := takeDigits r2
    if ip.isEmpty && fp.isEmpty then none
    else some ((digitsVal ip : ℚ) + (digitsVal fp : ℚ) / (10 : ℚ) ^ fp.length, r3)
  | _ =>
    if ip.isEmpty then none
    else some ((digitsVal ip : ℚ), r1)

/-- Optional exponent `(e|E) [sign] digits`; a bare `e` that is not
followed by digits makes the whole conversion fail. -/
def applyExponent (m : ℚ) (cs : List Char) : Option (ℚ × List Char) :=
  match cs with
  | c :: rest =>
    if c = 'e' || c = 'E' then
      let sr : Bool × List Char :=
        match rest with
        | '+' :: r => (false, r)
        | '-' :: r => (true, r)
        | r => (false, r)
      let (ds, r3) := takeDigits sr.2
      if ds.isEmpty then none
      else
        let e := digitsVal ds
        some (if sr.1 then m / (10 : ℚ) ^ e else m * (10 : ℚ) ^ e, r3)
    else some (m, cs)
  | [] => some (m, [])

/-- Lower-cases an ASCII character list. -/
def lowerList (cs : List Char) : List Char := cs.map Char.toLower

/-- Negation on the `float` domain. -/
def negPyFloat : PyFloat → PyFloat
  | .finite q => .finite (-q)
  | .inf => .negInf
  | .negInf => .inf
  | .nan => .nan

/-- Model of Python `float(s)` on a string argument: `none` models a
`ValueError`. -/
def pyFloat (s : String) : Option PyFloat :=
  let cs := s.toList.dropWhile isPyWhitespace
  let sb : Bool × List Char :=
    match cs with
    | '+' :: r => (false, r)
    | '-' :: r => (true, r)
    | r => (false, r)
  let body := sb.2
  let res : Option (PyFloat × List Char) :=
    if lowerList (body.take 8) = "infinity".toList then some (.inf, body.drop 8)
    else if lowerList (body.take 3) = "inf".toList then some (.inf, body.drop 3)
    else if lowerList (body.take 3) = "nan".toList then some (.nan, body.drop 3)
    else
      (parseMantissa body).bind fun mv =>
        (applyExponent mv.1 mv.2).map fun vr => (PyFloat.finite vr.1, vr.2)
  match res with
  | none => none
  | some (v, rest) =>
    if (rest.dropWhile isPyWhitespace).isEmpty then
      some (if sb.1 then negPyFloat v else v)
    else none

/-- Embedding of `sanitize_numeric_value` (app/utils.py 156-172).
`value[-1]` raises `IndexError` on the empty string; otherwise a
trailing `G`, `M`, `K` or `%` is dropped, and a `ValueError` from
`float` is caught and defaulted to `0.0`. -/
def sanitize_numeric_value (value : String) : Except PyExn PyFloat :=
  if value.isEmpty then .error .indexError
  else
    let v := if "GMK%".toList.contains value.back then value.dropRight 1 else value
    match pyFloat v with
    | some q => .ok q
    | none => .ok (.finite 0)

/-! ### Collection-loop tick cadence -/

/-- Sampling interval constant (app/utils.py line 23). -/
def METRIC_INTERVAL_SECONDS : ℚ := 10

/-- Wait computed at the end of a tick, from
`stop_flag.wait(max(METRIC_INTERVAL_SECONDS - elapsed_time, 0))`
(app/utils.py line 421, and identically line 489). -/
def tickWaitSeconds (elapsed : ℚ) : ℚ :=
  max (METRIC_INTERVAL_SECONDS - elapsed) 0

/-! ### The collection loop as a small-step machine

`collect_cpu_memory` (app/utils.py 417-421) and `collect_bad_frames`
(485-489) run

  while not stop_flag.is_set():
      start_time = time.time()
      <sample function>(ip_address, ...)
      elapsed_time = time.time() - start_time
      stop_flag.wait(max(METRIC_INTERVAL_SECONDS - elapsed_time, 0))

The machine below makes each program point explicit.  `flagSet` is the
state of the `threading.Event`; the event is set by the stop
operations and never cleared while the loop runs.  `stop_flag.wait`
returns early as soon as the flag is set (it is an interruptible wait),
and in either case control returns to the loop condition. -/

/-- Program points of the collection loop body. -/
inductive LoopPC where
  | check
  | sample
  | wait
  | exited
  deriving Repr, DecidableEq

/-- State of one running collection loop: the program point, the
cancellation flag, and the number of Sample Function invocations so
far. -/
structure LoopState where
  pc : LoopPC
  flagSet : Bool
  samples : Nat
  deriving Repr, DecidableEq

/-- One atomic step of the loop: a set flag at the loop condition exits;
a tick invokes the sample function and then waits; the wait hands
control back to the loop condition, never directly to another sample. -/
def loopStep : LoopState → LoopState
  | ⟨.check, true, n⟩ => ⟨.exited, true, n⟩
  | ⟨.check, false, n⟩ => ⟨.sample, false, n⟩
  | ⟨.sample, f, n⟩ => ⟨.wait, f, n + 1⟩
  | ⟨.wait, f, n⟩ => ⟨.check, f, n⟩
  | ⟨.exited, f, n⟩ => ⟨.exited, f, n⟩

/-- Runs the loop machine for `n` steps. -/
def loopRun (n : Nat) (s : LoopState) : LoopState := loopStep^[n] s

/-! ### Error propagation of the tick region

In `collect_cpu_memory` (utils.py 416-423) and `collect_bad_frames`
(484-491) the `try`/`except Exception` surrounds the whole `while`
loop.  `runTicks` runs the loop against a list prescribing the outcome
of each successive tick while the stop flag stays clear; it returns how
many ticks executed and the exception caught by the surrounding handler,
if any.  The handler logs and returns, so no exception crosses the
thread boundary. -/

/-- Outcome of one tick body. -/
inductive TickOutcome where
  | ok
  | raised (e : PyExn)
  deriving Repr, DecidableEq

/-- Embedding of the `try: while not stop_flag.is_set(): ...` region:
ticks run in order until the schedule ends or a tick raises; the raised
exception ends the loop and is caught (and logged) by the handler around
the `while`. -/
def runTicks : List TickOutcome → Nat × Option PyExn
  | [] => (0, none)
  | .ok :: rest =>
    let nr := runTicks rest
    (nr.1 + 1, nr.2)
  | .raised e :: _ => (1, some e)

/-! ### Exception structure of the Sample Functions

Each Sample Function is modelled at the level of its external calls and
handlers; the model returns the effects performed and the exception
escaping to the caller (`none` when nothing escapes). -/

/-- Behaviour of the collaborators during one `cpu_memory_usage` round
(utils.py 276-336): the `adb shell top` round-trip, the two regex
scans, the device lookup and the store append. -/
structure CpuSampleEnv where
  topRaises : Option PyExn
  parsedCpu : Option Nat
  parsedMem : Option (Nat × Nat)
  deviceInfoRaises : Option PyExn
  saveRecordRaises : Option PyExn
  deriving Repr, DecidableEq

/-- Effects of one sample round that are visible to the outside. -/
structure SampleEffects where
  publisherUpdates : Nat
  storeAppends : Nat
  deriving Repr, DecidableEq

/-- The body of `cpu_memory_usage` inside its `try` (utils.py 287-334):
run `top`, scan for `%user` and `Mem:`, update the gauges for whatever
was found, and if anything was found, look up the device and append one
record. -/
def cpuMemoryBody (env : CpuSampleEnv) : SampleEffects × Option PyExn :=
  match env.topRaises with
  | some e => (⟨0, 0⟩, some e)
  | none =>
    let pubs := (if env.parsedCpu.isSome then 1 else 0) +
                (if env.parsedMem.isSome then 3 else 0)
    if env.parsedCpu.isSome || env.parsedMem.isSome then
      match env.deviceInfoRaises with
      | some e => (⟨pubs, 0⟩, some e)
      | none =>
        match env.saveRecordRaises with
        | some e => (⟨pubs, 0⟩, some e)
        | none => (⟨pubs, 1⟩, none)
    else (⟨pubs, 0⟩, none)

/-- Embedding of `cpu_memory_usage` (utils.py 276-336): its single
handler is `except subprocess.CalledProcessError`, which logs; any other
exception leaves the function. -/
def cpu_memory_usage (env : CpuSampleEnv) : SampleEffects × Option PyExn :=
  let br := cpuMemoryBody env
  match br.2 with
  | some .calledProcessError => (br.1, none)
  | e => (br.1, e)

/-- Embedding of `get_storage_info` (utils.py 175-230) at the level of
its exception structure: an invalid IP returns early; the whole body is
inside `try`/`except Exception`, and the device lookup plus the store
append sit in a further inner `try`/`except Exception`.  The result is
the number of records appended and the exception escaping to the
caller. -/
def get_storage_info (validIp : Bool) (bodyRaises : Option PyExn)
    (persistRaises : Option PyExn) : Nat × Option PyExn :=
  if !validIp then (0, none)
  else
    match bodyRaises with
    | some _ => (0, none)
    | none =>
      match persistRaises with
      | some _ => (0, none)
      | none => (1, none)

/-- Embedding of `get_uptime` (utils.py 233-273): an invalid IP returns
early; everything else, including the `save_record` call, runs inside
one `try`/`except Exception` that logs and returns `None`. -/
def get_uptime (validIp : Bool) (bodyRaises : Option PyExn)
    (persistRaises : Option PyExn) : Nat × Option PyExn :=
  if !validIp then (0, none)
  else
    match bodyRaises with
    | some _ => (0, none)
    | none =>
      match persistRaises with
      | some _ => (0, none)
      | none => (1, none)

/-- Embedding of `get_bad_frames` (utils.py 339-382): a failed command
returns `None` early; the parse, the device lookup and the
`save_record` call all run inside one `try`/`except Exception` that
logs and returns `None`. -/
def get_bad_frames (cmdFailed : Bool) (bodyRaises : Option PyExn)
    (persistRaises : Option PyExn) : Nat × Option PyExn :=
  if cmdFailed then (0, none)
  else
    match bodyRaises with
    | some _ => (0, none)
    | none =>
      match persistRaises with
      | some _ => (0, none)
      | none => (1, none)

/-! ### Scheduling dispatch -/

/-- A log line's severity, as used by `run_selected_test`. -/
inductive LogEvent where
  | infoMsg
  | errorMsg
  | warningMsg
  deriving Repr, DecidableEq

/-- Observable behaviour of one test function in services.py: how many
store writes it performs and whether it raises. -/
structure TestBehavior where
  storeWrites : Nat
  raises : Option PyExn
  deriving Repr, DecidableEq

/-- Behaviours of the three test functions. -/
structure TestEnv where
  launchTime : TestBehavior
  cpuUsage : TestBehavior
  memoryUsage : TestBehavior
  deriving Repr, DecidableEq

/-- The dispatch table of `run_selected_test` (services.py 50-54). -/
def testFunctions (env : TestEnv) : List (String × TestBehavior) :=
  [("launch_time", env.launchTime),
   ("cpu_usage", env.cpuUsage),
   ("memory_usage", env.memoryUsage)]

/-- Association-list lookup mirroring `test_name in test_functions`
followed by `test_functions[test_name]`. -/
def lookupTest (name : String) : List (String × TestBehavior) → Option TestBehavior
  | [] => none
  | kv :: rest => if kv.1 = name then some kv.2 else lookupTest name rest

/-- Embedding of `run_selected_test` (services.py 42-63): a known token
logs info and runs its function inside `try`/`except Exception` (an
exception is logged, never re-raised); an unknown token only logs a
warning.  Returns the log trace, the store writes performed, and the
exception escaping to the caller. -/
def run_selected_test (test_name : String) (env : TestEnv) :
    List LogEvent × Nat × Option PyExn :=
  match lookupTest test_name (testFunctions env) with
  | some b =>
    match b.raises with
    | some _ => ([.infoMsg, .errorMsg], b.storeWrites, none)
    | none => ([.infoMsg], b.storeWrites, none)
  | none => ([.warningMsg], 0, none)

/-! ### Registry and lifecycle state

`active_threads` and `stop_flags_cpu_memory` (utils.py 385, 426) are
module-level dicts keyed by IP address; they are modelled as association
lists whose mutation mirrors dict assignment (`d[k] = v`) and
`d.pop(k, None)`.  Threads and `Event` objects are identified by the
order of their allocation; a thread is alive from `Thread.start()` until
its run function returns. -/

/-- Dict lookup `d.get(k)` / `k in d` on a string-keyed table. -/
def alookup (k : String) : List (String × Nat) → Option Nat
  | [] => none
  | kv :: rest => if kv.1 = k then some kv.2 else alookup k rest

/-- Dict assignment `d[k] = v`: replaces the binding in place, or
appends a new one. -/
def aset (k : String) (v : Nat) : List (String × Nat) → List (String × Nat)
  | [] => [(k, v)]
  | kv :: rest => if kv.1 = k then (k, v) :: rest else kv :: aset k v rest

/-- Dict removal `d.pop(k, None)`. -/
def aerase (k : String) : List (String × Nat) → List (String × Nat)
  | [] => []
  | kv :: rest => if kv.1 = k then rest else kv :: aerase k rest

/-- Log lines produced by the lifecycle operations (utils.py 439, 447,
464, 466 and 423). -/
inductive LifeLog where
  | alreadyRunning
  | started
  | stopped
  | noActiveCollection
  | loopError
  deriving Repr, DecidableEq

/-- Module-level state of the CPU/memory lifecycle: the two dicts, the
set of set `Event` ids, the set of thread ids whose run function has
returned, an allocation counter, the number of `Thread.start()` calls so
far, and the log. -/
structure LifeState where
  activeThreads : List (String × Nat)
  stopFlags : List (String × Nat)
  setFlags : List Nat
  deadThreads : List Nat
  nextId : Nat
  spawns : Nat
  log : List LifeLog
  deriving Repr, DecidableEq

/-- The empty module state at import time (utils.py 385, 426). -/
def initLifeState : LifeState := ⟨[], [], [], [], 0, 0, []⟩

/-- `Thread.is_alive()` for a thread already started. -/
def threadAlive (s : LifeState) (tid : Nat) : Bool :=
  !s.deadThreads.contains tid

/-- Allocation counters only grow into fresh ids: every recorded dead
thread id was allocated earlier. -/
def lifeWF (s : LifeState) : Prop :=
  ∀ t ∈ s.deadThreads, t < s.nextId

/-- The spawning branch of `start_cpu_memory_collection` (utils.py
442-447): store a fresh, clear `Event` in `stop_flags_cpu_memory`,
start a new thread running `collect_cpu_memory`, and record it in
`active_threads`. -/
def startFresh (ip : String) (s : LifeState) : LifeState :=
  { s with
    stopFlags := aset ip s.nextId s.stopFlags,
    activeThreads := aset ip (s.nextId + 1) s.activeThreads,
    nextId := s.nextId + 2,
    spawns := s.spawns + 1,
    log := .started :: s.log }

/-- Embedding of `start_cpu_memory_collection` (utils.py 429-447): if an
entry exists in `active_threads` and its thread is alive, log and
return; otherwise spawn.  (`start_bad_frames_collection`, 497-515, is
the same operation on its own pair of dicts.) -/
def start_cpu_memory_collection (ip : String) (s : LifeState) : LifeState :=
  match alookup ip s.activeThreads with
  | some tid =>
    if threadAlive s tid then { s with log := .alreadyRunning :: s.log }
    else startFresh ip s
  | none => startFresh ip s

/-- Embedding of `stop_cpu_memory_collection` (utils.py 450-466): if an
entry exists, pop the stop flag and set it, pop the thread and join it
(the loop observes the set flag and its run function returns, so after
the join the thread is dead); otherwise log a warning. -/
def stop_cpu_memory_collection (ip : String) (s : LifeState) : LifeState :=
  match alookup ip s.activeThreads with
  | some tid =>
    let withFlag :=
      match alookup ip s.stopFlags with
      | some flagId =>
        { s with stopFlags := aerase ip s.stopFlags, setFlags := flagId :: s.setFlags }
      | none => { s with stopFlags := aerase ip s.stopFlags }
    { withFlag with
      activeThreads := aerase ip withFlag.activeThreads,
      deadThreads := if threadAlive s tid then tid :: withFlag.deadThreads
                     else withFlag.deadThreads,
      log := .stopped :: withFlag.log }
  | none => { s with log := .noActiveCollection :: s.log }

/-- Terminal behaviour of `collect_cpu_memory` when an exception escapes
its tick loop (utils.py 422-423): the handler logs, the run function
returns and the thread dies.  Neither `active_threads` nor
`stop_flags_cpu_memory` is touched by the loop on the way out. -/
def loopErrorExit (ip : String) (s : LifeState) : LifeState :=
  match alookup ip s.activeThreads with
  | some tid => { s with deadThreads := tid :: s.deadThreads, log := .loopError :: s.log }
  | none => s

/-! ### Interleaving of two concurrent Start calls

`start_cpu_memory_collection` takes no lock: the liveness check (line
438), the stop-flag assignment (443), `Thread.start()` (445) and the
registry assignment (446) are separate interleavable steps.  The machine
below runs two callers of the operation for the same key against shared
state, one micro-step per schedule entry.  Threads never die during the
race, so the liveness check reduces to the entry being present. -/

/-- Shared module state for the fixed key during the race. -/
structure RaceState where
  entry : Option Nat
  flag : Option Nat
  nextId : Nat
  spawns : Nat
  deriving Repr, DecidableEq

/-- Program points of one caller of `start_cpu_memory_collection`. -/
inductive StartPC where
  | checkLive
  | allocFlag
  | spawnThread
  | insertEntry
  | done
  deriving Repr, DecidableEq

/-- Local state of one caller: its program point and the thread it
started, if any. -/
structure StartCall where
  pc : StartPC
  myTid : Option Nat
  deriving Repr, DecidableEq

/-- One micro-step of one caller against the shared state. -/
def startStep (s : RaceState) (c : StartCall) : RaceState × StartCall :=
  match c.pc with
  | .checkLive => (s, ⟨if s.entry.isSome then .done else .allocFlag, c.myTid⟩)
  | .allocFlag =>
    ({ s with flag := some s.nextId, nextId := s.nextId + 1 }, ⟨.spawnThread, c.myTid⟩)
  | .spawnThread =>
    ({ s with spawns := s.spawns + 1, nextId := s.nextId + 1 },
     ⟨.insertEntry, some s.nextId⟩)
  | .insertEntry => ({ s with entry := c.myTid }, ⟨.done, c.myTid⟩)
  | .done => (s, c)

/-- Two concurrent callers over the shared state. -/
structure RaceWorld where
  shared : RaceState
  a : StartCall
  b : StartCall
  deriving Repr, DecidableEq

/-- Performs one micro-step of caller `b` (when `pickB`) or caller
`a`. -/
def raceStep (w : RaceWorld) (pickB : Bool) : RaceWorld :=
  if pickB then
    let sc := startStep w.shared w.b
    { w with shared := sc.1, b := sc.2 }
  else
    let sc := startStep w.shared w.a
    { w with shared := sc.1, a := sc.2 }

/-- Runs a schedule of micro-steps. -/
def runSchedule (sched : List Bool) (w : RaceWorld) : RaceWorld :=
  sched.foldl raceStep w

/-- Both callers at their first instruction, over empty module dicts. -/
def initRaceWorld : RaceWorld :=
  ⟨⟨none, none, 0, 0⟩, ⟨.checkLive, none⟩, ⟨.checkLive, none⟩⟩

/-- The interleaving in which both callers pass the liveness check
before either registers its thread. -/
def racySchedule : List Bool :=
  [false, true, false, false, false, true, true, true]

/-- The schedule in which the first caller finishes before the second
begins. -/
def sequentialSchedule : List Bool :=
  [false, false, false, false, true]

/-! ## Helper lemmas -/

/-- A loop that has exited stays exited, with no further samples. -/
theorem loopRun_exited (n : Nat) (f : Bool) (k : Nat) :
    loopRun n ⟨.exited, f, k⟩ = ⟨.exited, f, k⟩ := by
  induction n with
  | zero => rfl
  | succ m ih =>
    rw [loopRun, Function.iterate_succ_apply]
    exact ih

/-- On the empty string `sanitize_numeric_value` hits `value[-1]` and
raises `IndexError`. -/
theorem sanitize_empty_eq :
    sanitize_numeric_value "" = .error .indexError := by
  decide

/-- On a non-empty string `sanitize_numeric_value` returns a value:
either the parsed float or the `0.0` default. -/
theorem sanitize_ok_of_ne_empty (value : String) (h : value ≠ "") :
    ∃ q, sanitize_numeric_value value = .ok q := by
  have hne : value.isEmpty = false := by
    rw [Bool.eq_false_iff]
    intro hc
    exact h ((String.isEmpty_iff _).mp hc)
  simp only [sanitize_numeric_value, hne, Bool.false_eq_true, if_false]
  cases hp : pyFloat (if "GMK%".toList.contains value.back then value.dropRight 1 else value) with
  | none => exact ⟨.finite 0, by simp [hp]⟩
  | some q => exact ⟨q, by simp [hp]⟩

/-- `alookup` misses every key that is absent from the table. -/
theorem alookup_eq_none_of_not_mem (k : String) (l : List (String × Nat))
    (h : k ∉ l.map Prod.fst) : alookup k l = none := by
  induction l with
  | nil => rfl
  | cons kv rest ih =>
    simp only [List.map_cons, List.mem_cons] at h
    push_neg at h
    have hk : ¬kv.1 = k := fun hk => h.1 hk.symm
    simp only [alookup, if_neg hk]
    exact ih h.2

/-- Removing a key from a table with distinct keys removes its binding. -/
theorem alookup_aerase_self (k : String) (l : List (String × Nat))
    (h : (l.map Prod.fst).Nodup) : alookup k (aerase k l) = none := by
  induction l with
  | nil => rfl
  | cons kv rest ih =>
    simp only [List.map_cons, List.nodup_cons] at h
    by_cases hk : kv.1 = k
    · simp only [aerase, if_pos hk]
      exact alookup_eq_none_of_not_mem k rest (hk ▸ h.1)
    · simp only [aerase, if_neg hk, alookup, if_neg hk]
      exact ih h.2

/-- `start_cpu_memory_collection` always leaves a live registry entry
for the key it was called with, provided dead-thread ids were allocated
in the past. -/
theorem start_gives_live_entry (ip : String) (s : LifeState) (hwf : lifeWF s) :
    ∃ tid, alookup ip (start_cpu_memory_collection ip s).activeThreads = some tid ∧
      threadAlive (start_cpu_memory_collection ip s) tid = true := by
  have hfresh : ∀ (s2 : LifeState), s2 = startFresh ip s →
      ∃ tid, alookup ip s2.activeThreads = some tid ∧ threadAlive s2 tid = true := by
    intro s2 hs2
    refine ⟨s.nextId + 1, ?_, ?_⟩
    · rw [hs2]
      show alookup ip (aset ip (s.nextId + 1) s.activeThreads) = some (s.nextId + 1)
      clear hs2 hwf
      induction s.activeThreads with
      | nil => simp [aset, alookup]
      | cons kv rest ih =>
        by_cases hk : kv.1 = ip
        · simp [aset, hk, alookup]
        · simp [aset, hk, alookup, ih]
    · have hmem : (s.nextId + 1) ∉ s.deadThreads := fun hmem => by
        have := hwf _ hmem; omega
      rw [hs2]
      show (!(startFresh ip s).deadThreads.contains (s.nextId + 1)) = true
      simp [startFresh, hmem]
  cases hlook : alookup ip s.activeThreads with
  | none =>
    have heq : start_cpu_memory_collection ip s = startFresh ip s := by
      unfold start_cpu_memory_collection
      simp only [hlook]
    rw [heq]
    exact hfresh _ rfl
  | some tid =>
    by_cases halive : threadAlive s tid = true
    · have heq : start_cpu_memory_collection ip s
          = { s with log := .alreadyRunning :: s.log } := by
        unfold start_cpu_memory_collection
        simp only [hlook]
        rw [if_pos halive]
      rw [heq]
      refine ⟨tid, ?_, ?_⟩
      · simpa using hlook
      · simpa [threadAlive] using halive
    · have heq : start_cpu_memory_collection ip s = startFresh ip s := by
        unfold start_cpu_memory_collection
        simp only [hlook]
        rw [if_neg halive]
      rw [heq]
      exact hfresh _ rfl

/-! ## Claims -/

/-- Claim C2: if the cancellation flag is set while the loop is in its
wait phase, the wait returns and the loop condition is re-checked before
any further sample: no sample is ever produced afterwards, and within
two steps the loop has exited.  (`stop_cpu_memory_collection` sets the
flag and then joins the thread, so nothing samples after Stop
returns.) -/
theorem cancel_during_wait_no_more_samples (k n : Nat) :
    (loopRun n ⟨.wait, true, k⟩).samples = k ∧
    (2 ≤ n → (loopRun n ⟨.wait, true, k⟩).pc = .exited) := by
  rcases n with _ | n1
  · exact ⟨rfl, fun h => absurd h (by omega)⟩
  rcases n1 with _ | m
  · exact ⟨rfl, fun h => absurd h (by omega)⟩
  have h2 : loopRun (m + 2) ⟨.wait, true, k⟩ = ⟨.exited, true, k⟩ := by
    have hstep : loopRun (m + 2) ⟨.wait, true, k⟩
        = loopRun m (loopStep (loopStep ⟨.wait, true, k⟩)) := by
      simp [loopRun, Function.iterate_succ_apply]
    rw [hstep]
    exact loopRun_exited m true k
  rw [h2]
  exact ⟨rfl, fun _ => rfl⟩

/-- Witness for C2 at a concrete state: flag set during the wait after 3
samples; two steps later the loop has exited and still has 3 samples. -/
theorem cancel_during_wait_no_more_samples_witness :
    (loopRun 2 ⟨.wait, true, 3⟩).samples = 3 ∧
    (loopRun 2 ⟨.wait, true, 3⟩).pc = .exited :=
  ⟨(cancel_during_wait_no_more_samples 3 2).1,
   (cancel_during_wait_no_more_samples 3 2).2 (by omega)⟩

/-- Claim C3: with the configured interval
`METRIC_INTERVAL_SECONDS = 10`, a tick that took `t` seconds is followed
by a wait of `max (10 - t) 0` seconds; a tick of at least the interval
length is followed by no delay. -/
theorem tick_wait_formula (t : ℚ) :
    tickWaitSeconds t = max (METRIC_INTERVAL_SECONDS - t) 0 ∧
    METRIC_INTERVAL_SECONDS = 10 ∧
    (METRIC_INTERVAL_SECONDS ≤ t → tickWaitSeconds t = 0) := by
  refine ⟨rfl, rfl, fun h => ?_⟩
  have hle : METRIC_INTERVAL_SECONDS - t ≤ 0 := by linarith
  simpa [tickWaitSeconds] using max_eq_right hle

/-- Witness for C3: a 12-second tick is followed by a zero wait. -/
theorem tick_wait_formula_witness : tickWaitSeconds 12 = 0 :=
  (tick_wait_formula 12).2.2 (by norm_num [METRIC_INTERVAL_SECONDS])

/-- Claim C4 counterexample: the `try`/`except` of `collect_cpu_memory`
wraps the whole `while` loop, so when the first tick raises, the loop
executes no further tick — 1 tick runs, not the 2 the claim's
"continues to the next tick" would give — and the exception is caught
and logged by the handler. -/
theorem tick_error_stops_loop_cex :
    runTicks [.raised .runtimeError, .ok] = (1, some .runtimeError) ∧
    (runTicks [.raised .runtimeError, .ok]).1 ≠ 2 := by
  decide

/-- Claim C4 (amended): an uncaught error from a tick is caught by the
handler around the `while` loop and logged, and the loop then
terminates — the ticks after the raising one never run; no exception
propagates out of the collection loop (the handler returns normally). -/
theorem tick_error_logged_loop_terminates (pre : List TickOutcome) (e : PyExn)
    (post : List TickOutcome) (h : ∀ x ∈ pre, x = .ok) :
    runTicks (pre ++ .raised e :: post) = (pre.length + 1, some e) := by
  induction pre with
  | nil => rfl
  | cons x rest ih =>
    have hx : x = .ok := h x (by simp)
    subst hx
    have hr := ih (fun y hy => h y (by simp [hy]))
    simp [runTicks, hr]

/-- Witness for the amended C4: one good tick, then a raising tick, then
a scheduled tick that never runs. -/
theorem tick_error_logged_loop_terminates_witness :
    runTicks [.ok, .raised .runtimeError, .ok] = (2, some .runtimeError) := by
  simpa using tick_error_logged_loop_terminates [.ok] .runtimeError [.ok] (by simp)

/-- Claim C8 counterexample: on the empty string the claimed
"for every input string … rather than an exception" fails —
`sanitize_numeric_value ""` raises `IndexError` instead of returning a
value. -/
theorem sanitize_empty_raises_cex :
    sanitize_numeric_value "" = .error .indexError ∧
    ∀ q, sanitize_numeric_value "" ≠ .ok q := by
  refine ⟨sanitize_empty_eq, fun q hq => ?_⟩
  rw [sanitize_empty_eq] at hq
  exact Except.noConfusion hq

/-- Claim C8 (amended): for every NON-EMPTY input string,
`sanitize_numeric_value` strips a trailing `G`/`M`/`K`/`%` before float
conversion and returns a value, defaulting to `0.0` when the remainder
does not parse; in particular `"75%"` yields `75.0`, `"1.2G"` yields
`1.2` and `"N/A"` yields `0.0`. -/
theorem sanitize_nonempty_suffix_default (value : String) (h : value ≠ "") :
    (∃ q, sanitize_numeric_value value = .ok q) ∧
    sanitize_numeric_value "75%" = .ok (.finite 75) ∧
    sanitize_numeric_value "1.2G" = .ok (.finite (6 / 5)) ∧
    sanitize_numeric_value "N/A" = .ok (.finite 0) := by
  refine ⟨sanitize_ok_of_ne_empty value h, ?_, ?_, ?_⟩
  · simp +decide [sanitize_numeric_value, pyFloat, parseMantissa, applyExponent, takeDigits,
      digitsVal, lowerList, isPyWhitespace, negPyFloat]
  · simp +decide [sanitize_numeric_value, pyFloat, parseMantissa, applyExponent, takeDigits,
      digitsVal, lowerList, isPyWhitespace, negPyFloat]
    norm_num
  · simp +decide [sanitize_numeric_value, pyFloat, parseMantissa, applyExponent, takeDigits,
      digitsVal, lowerList, isPyWhitespace, negPyFloat]

/-- Witness for the amended C8 at the non-empty input `"abc"`. -/
theorem sanitize_nonempty_suffix_default_witness :
    ∃ q, sanitize_numeric_value "abc" = .ok q :=
  (sanitize_nonempty_suffix_default "abc" (by decide)).1

/-- Claim C9: a test-selection token outside the dispatch table of
`run_selected_test` only logs a warning: no test function runs, zero
store writes happen, and nothing is raised to the caller. -/
theorem unknown_token_warns_no_writes (test_name : String) (env : TestEnv)
    (h : test_name ∉ ["launch_time", "cpu_usage", "memory_usage"]) :
    run_selected_test test_name env = ([.warningMsg], 0, none) := by
  simp only [List.mem_cons, List.not_mem_nil, or_false] at h
  push_neg at h
  obtain ⟨h1, h2, h3⟩ := h
  simp [run_selected_test, testFunctions, lookupTest, Ne.symm h1, Ne.symm h2, Ne.symm h3]

/-- Witness for C9 at the unknown token `"frobnicate"`. -/
theorem unknown_token_warns_no_writes_witness :
    run_selected_test "frobnicate" ⟨⟨1, none⟩, ⟨1, none⟩, ⟨1, none⟩⟩
      = ([.warningMsg], 0, none) :=
  unknown_token_warns_no_writes "frobnicate" ⟨⟨1, none⟩, ⟨1, none⟩, ⟨1, none⟩⟩ (by decide)

/-- Claim C10: non-emptiness is an unstated precondition of
`sanitize_numeric_value` — every non-empty string produces a value, but
the empty string hits `value[-1]` and raises `IndexError` instead of
returning the `0.0` default. -/
theorem sanitize_nonempty_precondition (value : String) (h : value ≠ "") :
    (∃ q, sanitize_numeric_value value = .ok q) ∧
    sanitize_numeric_value "" = .error .indexError :=
  ⟨sanitize_ok_of_ne_empty value h, sanitize_empty_eq⟩

/-- Witness for C10 at the non-empty input `"x"`. -/
theorem sanitize_nonempty_precondition_witness :
    (∃ q, sanitize_numeric_value "x" = .ok q) ∧
    sanitize_numeric_value "" = .error .indexError :=
  sanitize_nonempty_precondition "x" (by decide)

/-- Claim C1: calling the start operation twice in immediate succession
leaves exactly one live entry: the first call guarantees a live
registered thread, and the second call observes it, only logs
"already running", and changes neither the registry, nor the stop
flags, nor the spawn count.  The hypothesis says dead-thread ids were
allocated in the past (true of every state the module reaches). -/
theorem start_twice_one_live_task (ip : String) (s : LifeState) (hwf : lifeWF s) :
    (start_cpu_memory_collection ip (start_cpu_memory_collection ip s)).activeThreads
      = (start_cpu_memory_collection ip s).activeThreads ∧
    (start_cpu_memory_collection ip (start_cpu_memory_collection ip s)).stopFlags
      = (start_cpu_memory_collection ip s).stopFlags ∧
    (start_cpu_memory_collection ip (start_cpu_memory_collection ip s)).spawns
      = (start_cpu_memory_collection ip s).spawns ∧
    (start_cpu_memory_collection ip (start_cpu_memory_collection ip s)).deadThreads
      = (start_cpu_memory_collection ip s).deadThreads ∧
    (start_cpu_memory_collection ip (start_cpu_memory_collection ip s)).log
      = .alreadyRunning :: (start_cpu_memory_collection ip s).log ∧
    ∃ tid, alookup ip (start_cpu_memory_collection ip s).activeThreads = some tid ∧
      threadAlive (start_cpu_memory_collection ip s) tid = true := by
  obtain ⟨tid, hlook, halive⟩ := start_gives_live_entry ip s hwf
  set s1 := start_cpu_memory_collection ip s with hs1
  have heq : start_cpu_memory_collection ip s1
      = { s1 with log := .alreadyRunning :: s1.log } := by
    unfold start_cpu_memory_collection
    simp only [hlook]
    rw [if_pos halive]
  rw [heq]
  exact ⟨by simp, by simp, by simp, by simp, by simp, tid, hlook, halive⟩

/-- Witness for C1: two immediate starts for device `"10.0.0.5"` from
the freshly imported module state. -/
theorem start_twice_one_live_task_witness :
    (start_cpu_memory_collection "10.0.0.5"
        (start_cpu_memory_collection "10.0.0.5" initLifeState)).spawns
      = (start_cpu_memory_collection "10.0.0.5" initLifeState).spawns ∧
    ∃ tid, alookup "10.0.0.5"
        (start_cpu_memory_collection "10.0.0.5" initLifeState).activeThreads = some tid ∧
      threadAlive (start_cpu_memory_collection "10.0.0.5" initLifeState) tid = true :=
  ⟨(start_twice_one_live_task "10.0.0.5" initLifeState
      (by simp [lifeWF, initLifeState])).2.2.1,
   (start_twice_one_live_task "10.0.0.5" initLifeState
      (by simp [lifeWF, initLifeState])).2.2.2.2.2⟩

/-- Claim C5 counterexample: start a collection for `"10.0.0.5"` from
the fresh module state, then let its loop die on an escaping exception
(`collect_cpu_memory`'s handler just logs and returns).  The thread is
dead, yet its `active_threads` entry is still present — the registry
entry is NOT removed by the loop's terminal path, contradicting the
claimed removal on natural error exit. -/
theorem loop_error_exit_keeps_entry_cex :
    alookup "10.0.0.5"
      (loopErrorExit "10.0.0.5"
        (start_cpu_memory_collection "10.0.0.5" initLifeState)).activeThreads = some 1 ∧
    threadAlive
      (loopErrorExit "10.0.0.5"
        (start_cpu_memory_collection "10.0.0.5" initLifeState)) 1 = false := by
  decide

/-- Claim C5 (amended): registry entries are removed only by the stop
operation.  `stop_cpu_memory_collection` removes the key's entry; the
loop's terminal error path (`loopErrorExit`) leaves both
`active_threads` and `stop_flags_cpu_memory` untouched, so a dead loop's
entry stays in the registry until a stop removes it (or a later start
overwrites the dead entry). -/
theorem registry_removal_only_by_stop (ip : String) (s : LifeState)
    (h : (s.activeThreads.map Prod.fst).Nodup) :
    (loopErrorExit ip s).activeThreads = s.activeThreads ∧
    (loopErrorExit ip s).stopFlags = s.stopFlags ∧
    alookup ip (stop_cpu_memory_collection ip s).activeThreads = none := by
  refine ⟨?_, ?_, ?_⟩
  · cases hl : alookup ip s.activeThreads <;> simp [loopErrorExit, hl]
  · cases hl : alookup ip s.activeThreads <;> simp [loopErrorExit, hl]
  · cases hl : alookup ip s.activeThreads with
    | none =>
      have heq : stop_cpu_memory_collection ip s
          = { s with log := .noActiveCollection :: s.log } := by
        unfold stop_cpu_memory_collection
        simp only [hl]
      rw [heq]
      simpa using hl
    | some tid =>
      cases hf : alookup ip s.stopFlags <;>
        · unfold stop_cpu_memory_collection
          simp only [hl, hf]
          exact alookup_aerase_self ip s.activeThreads h

/-- Witness for the amended C5: the state after one start for
`"10.0.0.5"`; the thread's error exit keeps the entry and a stop removes
it. -/
theorem registry_removal_only_by_stop_witness :
    (loopErrorExit "10.0.0.5"
        (start_cpu_memory_collection "10.0.0.5" initLifeState)).activeThreads
      = (start_cpu_memory_collection "10.0.0.5" initLifeState).activeThreads ∧
    (loopErrorExit "10.0.0.5"
        (start_cpu_memory_collection "10.0.0.5" initLifeState)).stopFlags
      = (start_cpu_memory_collection "10.0.0.5" initLifeState).stopFlags ∧
    alookup "10.0.0.5"
      (stop_cpu_memory_collection "10.0.0.5"
        (start_cpu_memory_collection "10.0.0.5" initLifeState)).activeThreads = none :=
  registry_removal_only_by_stop "10.0.0.5"
    (start_cpu_memory_collection "10.0.0.5" initLifeState) (by decide)

/-- Claim C6 counterexample: in a round where `top` parses fine but
`save_record` raises (its database branch re-raises `RuntimeError`,
app/database.py 89-92), `cpu_memory_usage` updates the publisher, then
lets the exception escape to its caller: its only handler is
`except subprocess.CalledProcessError`.  This contradicts the claimed
"a failed store append … does not raise out of the Sample Function". -/
theorem save_record_failure_escapes_cex :
    (cpu_memory_usage ⟨none, some 42, none, none, some .runtimeError⟩).2
      = some .runtimeError ∧
    (cpu_memory_usage ⟨none, some 42, none, none, some .runtimeError⟩).1.publisherUpdates
      = 1 ∧
    (cpu_memory_usage ⟨none, some 42, none, none, some .runtimeError⟩).1.storeAppends
      = 0 := by
  decide

/-- Claim C6 (amended): `get_storage_info`, `get_uptime` and
`get_bad_frames` never raise to their caller — every failure, a store
append's included, is caught by their `except Exception` handlers and
logged; `cpu_memory_usage` however suppresses only
`CalledProcessError`, so any other failure of its body — in particular a
`save_record` or `get_device_info` raising — escapes to its caller. -/
theorem sampler_exception_policy :
    (∀ (v : Bool) (b p : Option PyExn), (get_storage_info v b p).2 = none) ∧
    (∀ (v : Bool) (b p : Option PyExn), (get_uptime v b p).2 = none) ∧
    (∀ (c : Bool) (b p : Option PyExn), (get_bad_frames c b p).2 = none) ∧
    (∀ env : CpuSampleEnv, (cpu_memory_usage env).2 = none ↔
      ((cpuMemoryBody env).2 = none ∨
       (cpuMemoryBody env).2 = some .calledProcessError)) := by
  refine ⟨?_, ?_, ?_, ?_⟩
  · intro v b p
    cases v <;> cases b <;> cases p <;> rfl
  · intro v b p
    cases v <;> cases b <;> cases p <;> rfl
  · intro c b p
    cases c <;> cases b <;> cases p <;> rfl
  · intro env
    unfold cpu_memory_usage
    rcases hb : (cpuMemoryBody env).2 with _ | e
    · simp [hb]
    · cases e <;> simp [hb]

/-- Claim C7 counterexample: the interleaving in which both callers of
`start_cpu_memory_collection` pass the liveness check before either
registers its thread makes both spawn collection loops
(`spawns = 2`), and the second registry insert silently overwrites the
first — the liveness check and the registry insert are not one critical
section. -/
theorem concurrent_start_double_spawn_cex :
    (runSchedule racySchedule initRaceWorld).shared.spawns = 2 ∧
    (runSchedule racySchedule initRaceWorld).a.pc = .done ∧
    (runSchedule racySchedule initRaceWorld).b.pc = .done := by
  decide

/-- Claim C7 (amended): the start operation takes no lock, so its
check-then-insert is not atomic: when the two calls do not interleave
the second observes the first's entry and only one loop is spawned,
but there is an interleaving of two concurrent calls for the same key
under which both spawn loops and the loser's thread is silently
dropped from the registry. -/
theorem start_check_insert_not_atomic :
    (runSchedule sequentialSchedule initRaceWorld).shared.spawns = 1 ∧
    (runSchedule sequentialSchedule initRaceWorld).b.myTid = none ∧
    (runSchedule racySchedule initRaceWorld).shared.spawns = 2 ∧
    (runSchedule racySchedule initRaceWorld).shared.entry = some 3 ∧
    (runSchedule racySchedule initRaceWorld).a.myTid = some 1 := by
  decide

end Diploma
